import Mathlib

/-!
# rkt fly: launch orchestration (rkt/fly.go)

A shallow embedding of `runFlyPrepareApp` and `runFly`.  Both functions are
straight-line sequences of calls into collaborators (store, image finder,
renderer, file system, `execve`) separated by early returns.  The embedding
keeps that shape:

* every collaborator is a field of `World`, an oracle giving the outcome of the
  call for its arguments;
* every call is appended to a trace of `Event`s together with its outcome, in
  program order;
* a run ends by returning a value, by a Go runtime panic, or by the process
  image being replaced by `execve`.
-/

namespace Fly

/-! ## Data model -/

/-- A Go `error` value, identified with its message; `Option GoError` is an
`error` that may be `nil`. -/
abbrev GoError := String

/-- Modelled from the spec: `types.Hash` of the vendored appc schema (its
declaration is not in this file), the content-derived image identifier. -/
structure Hash where
  Typ : String
  Val : String
  deriving DecidableEq, Repr

/-- Modelled from the spec: `Hash.String`, the fixed-format digest string used
as the store lookup key. -/
def Hash.String (h : Hash) : String := h.Typ ++ "-" ++ h.Val

/-- Modelled from the spec: `types.App`, the application section of an image
manifest.  `Exec` is the entrypoint command; the remaining fields stand for
the rest of the section, which `fly.go` never reads. -/
structure App where
  Exec : List String
  User : String
  Group : String
  deriving DecidableEq, Repr

/-- Modelled from the spec: `schema.ImageManifest`.  `App` is a pointer in the
source, `none` is the absent application section. -/
structure ImageManifest where
  Name : String
  Labels : List (String × String)
  App : Option App
  deriving DecidableEq, Repr

/-- Modelled from the spec: `apps.App`, one image named on the command line,
with the arguments given after it and the identifier the finder resolves. -/
structure RktApp where
  Image : String
  Args : List String
  ImageID : Hash
  deriving DecidableEq, Repr

/-- Modelled from the spec: `apps.Apps`, the list of images of a command line. -/
structure Apps where
  apps : List RktApp
  deriving DecidableEq, Repr

/-- Modelled from the spec: `Apps.Count`, the number of images. -/
def Apps.Count (al : Apps) : Int := al.apps.length

/-- Modelled from the spec: `Apps.Last`, a pointer to the last image, `nil`
when there is none. -/
def Apps.Last (al : Apps) : Option RktApp := al.apps.getLast?

/-- Modelled from the spec: `uid.UidRange`, the private id range handed to the
renderer. -/
structure UidRange where
  Shift : Nat
  Count : Nat
  deriving DecidableEq, Repr

/-- Modelled from the spec: `uid.NewBlankUidRange`, the blank range (no
remapping). -/
def NewBlankUidRange : UidRange := ⟨0, 0⟩

/-- Handle of an opened image store. -/
structure Store where
  handle : Nat
  deriving DecidableEq, Repr

/-- Handle of the keystore returned by `getKeystore`. -/
structure Keystore where
  handle : Nat
  deriving DecidableEq, Repr

/-- The two fields of the configuration that `fly.go` reads. -/
structure Config where
  AuthPerHost : List (String × String)
  DockerCredentialsPerRegistry : List (String × String)
  deriving DecidableEq, Repr

/-- The fields of the package variable `globalFlags` that `fly.go` reads. -/
structure GlobalFlags where
  Dir : String
  InsecureSkipVerify : Bool
  Debug : Bool
  deriving DecidableEq, Repr

/-- Package-level variables read by `fly.go`. -/
structure Globals where
  globalFlags : GlobalFlags
  flagLocal : Bool
  deriving DecidableEq, Repr

/-- The assignment `globalFlags.Dir = d`. -/
def Globals.setDir (g : Globals) (d : String) : Globals :=
  ⟨⟨d, g.globalFlags.InsecureSkipVerify, g.globalFlags.Debug⟩, g.flagLocal⟩

/-- The struct `imageActionData` embedded in `finder`. -/
structure ImageActionData where
  s : Store
  ks : Keystore
  headers : List (String × String)
  dockerAuth : List (String × String)
  insecureSkipVerify : Bool
  debug : Bool
  deriving DecidableEq, Repr

/-- The struct `finder` built by `runFlyPrepareApp`. -/
structure Finder where
  imageActionData : ImageActionData
  local_ : Bool
  withDeps : Bool
  deriving DecidableEq, Repr

/-- What a call of `syscall.Exec` can do: replace the process image (the call
never returns), return an error, or return `nil` (the case the source guards
with its final `panic`). -/
inductive ExecOutcome where
  | replaced
  | failed (err : GoError)
  | returnedNil
  deriving DecidableEq, Repr

/-- The collaborators of `fly.go`, as oracles: each field gives the outcome of
one external call for the arguments it is called with.  For a call returning
only an `error`, `none` is `nil` (success). -/
structure World where
  parseApps : List String → Bool → Except GoError Apps
  tempDir : String → String → Except GoError String
  newStore : String → Except GoError Store
  getConfig : Except GoError Config
  getKeystore : Keystore
  findImages : Finder → Apps → Apps × Option GoError
  newUUID : Except GoError String
  flightDir : Globals → String
  join : String → String → String
  mkdirAll : String → Nat → Option GoError
  getImageManifest : Store → String → Except GoError ImageManifest
  renderACI : Hash → String → Store → UidRange → Option GoError
  chdir : String → Option GoError
  chroot : String → Option GoError
  stat : String → Option GoError
  exec : String → List String → List String → ExecOutcome
  environ : List String

/-- One observable step of a run: an external call with its arguments and, for
the file-system and process calls, its outcome (`none` is success). -/
inductive Event where
  | stderr (format : String) (args : List String)
  | logPrintf (format : String)
  | parseApps (args : List String)
  | tempDir (dir : String) (pfx : String)
  | newStore (dir : String)
  | getConfig
  | getKeystore
  | findImages
  | newUUID
  | mkdirAll (path : String) (perm : Nat) (res : Option GoError)
  | getImageManifest (key : String)
  | renderACI (id : Hash) (dir : String)
  | removeAll (path : String)
  | chdir (path : String) (res : Option GoError)
  | chroot (path : String) (res : Option GoError)
  | stat (path : String) (res : Option GoError)
  | exec (argv0 : String) (argv : List String) (envv : List String) (res : ExecOutcome)
  deriving DecidableEq, Repr

/-- How a run of `runFlyPrepareApp` ends: it returns, or a Go runtime panic
unwinds it. -/
inductive Outcome (α : Type) where
  | ret (a : α)
  | panic (msg : String)
  deriving DecidableEq, Repr

/-- How a run of `runFly` ends: it returns an exit status, a panic unwinds it,
or `execve` succeeded and the process image was replaced (no return). -/
inductive FlyOutcome where
  | ret (exit : Int)
  | panic (msg : String)
  | replaced
  deriving DecidableEq, Repr

/-- A run of `runFlyPrepareApp`: the calls made, the state of `*app` when the
run ends, and how it ends.  A returned triple is `(dir, imApp, err)`. -/
structure PrepRun where
  trace : List Event
  app : Apps
  out : Outcome (String × Option App × Option GoError)
  deriving DecidableEq, Repr

/-- A run of `runFly`: the calls made and how it ends (`ret n` is the exit
status `n`). -/
structure FlyRun where
  trace : List Event
  out : FlyOutcome
  deriving DecidableEq, Repr

/-- The mode `0700` passed to `os.MkdirAll`. -/
def mode0700 : Nat := 0o700

/-- The `finder` literal of `runFlyPrepareApp`, with `fn.ks = getKeystore()`. -/
def flyFinder (w : World) (g : Globals) (s : Store) (config : Config) : Finder :=
  ⟨⟨s, w.getKeystore, config.AuthPerHost, config.DockerCredentialsPerRegistry,
      g.globalFlags.InsecureSkipVerify, g.globalFlags.Debug⟩, g.flagLocal, true⟩

/-! ## The program -/

/-- The function `runFlyPrepareApp` of rkt/fly.go. -/
def runFlyPrepareApp (w : World) (g : Globals) (app : Apps) : PrepRun :=
  let privateUsers := NewBlankUidRange
  let t1 := [Event.newStore g.globalFlags.Dir]
  match w.newStore g.globalFlags.Dir with
  | .error err =>
    ⟨t1 ++ [.stderr "fly: cannot open store: %v" [err]], app, .ret ("", none, some err)⟩
  | .ok s =>
  let t2 := t1 ++ [Event.getConfig]
  match w.getConfig with
  | .error err =>
    ⟨t2 ++ [.stderr "fly: cannot get configuration: %v" [err]], app, .ret ("", none, some err)⟩
  | .ok config =>
  let fn := flyFinder w g s config
  let t3 := t2 ++ [Event.getKeystore, Event.findImages]
  match w.findImages fn app with
  | (app1, some err) =>
    ⟨t3 ++ [.stderr "fly: cannot find image: %v" [err]], app1, .ret ("", none, some err)⟩
  | (app1, none) =>
  let t4 := t3 ++ [Event.newUUID]
  match w.newUUID with
  | .error err =>
    ⟨t4 ++ [.stderr "fly: error creating UUID: %v" [err]], app1, .ret ("", none, some err)⟩
  | .ok u =>
  let dir := w.join (w.flightDir g) u
  let t5 := t4 ++ [Event.mkdirAll dir mode0700 (w.mkdirAll dir mode0700)]
  match w.mkdirAll dir mode0700 with
  | some err =>
    ⟨t5 ++ [.stderr "fly: error creating directory: %v" [err]], app1, .ret ("", none, some err)⟩
  | none =>
  match app1.Last with
  | none => ⟨t5, app1, .panic "runtime error: invalid memory address or nil pointer dereference"⟩
  | some rktApp =>
  let id := rktApp.ImageID
  let t6 := t5 ++ [Event.getImageManifest id.String]
  match w.getImageManifest s id.String with
  | .error err =>
    ⟨t6 ++ [.removeAll dir, .stderr "fly: error getting image manifest: %v" [err]], app1,
      .ret ("", none, some err)⟩
  | .ok image =>
  -- here `err` is the `nil` returned by `GetImageManifest`
  let err : Option GoError := none
  match image.App with
  | none =>
    ⟨t6 ++ [.removeAll dir, .stderr "fly: image has no App section" []], app1,
      .ret ("", none, err)⟩
  | some imApp =>
  let t7 := t6 ++ [Event.renderACI id dir]
  match w.renderACI id dir s privateUsers with
  | some err =>
    ⟨t7 ++ [.removeAll dir, .stderr "fly: error rendering ACI: %v" [err]], app1,
      .ret ("", none, some err)⟩
  | none =>
    ⟨t7, app1, .ret (dir, some imApp, none)⟩

/-- The function `runFly` of rkt/fly.go. -/
def runFly (w : World) (g : Globals) (args : List String) : FlyRun :=
  let t1 := [Event.parseApps args]
  match w.parseApps args true with
  | .error err =>
    ⟨t1 ++ [.stderr "fly: error parsing app image arguments: %v" [err]], .ret 1⟩
  | .ok rktApp =>
  if rktApp.Count ≠ 1 then
    ⟨t1 ++ [.stderr "fly: must provide exactly one image" []], .ret 1⟩
  else
  let setup : List Event × Except GoError Globals :=
    if g.globalFlags.Dir = "" then
      let t := t1 ++ [Event.logPrintf "fly: dir unset - using temporary directory",
                      Event.tempDir "" "rkt"]
      match w.tempDir "" "rkt" with
      | .error err => (t ++ [.stderr "fly: error creating temporary directory: %v" [err]], .error err)
      | .ok d => (t, .ok (g.setDir d))
    else (t1, .ok g)
  match setup with
  | (t2, .error _) => ⟨t2, .ret 1⟩
  | (t2, .ok g1) =>
  let p := runFlyPrepareApp w g1 rktApp
  let t3 := t2 ++ p.trace
  match p.out with
  | .panic msg => ⟨t3, .panic msg⟩
  | .ret (_, _, some err) =>
    ⟨t3 ++ [.stderr "fly: error preparing App: %v" [err]], .ret 1⟩
  | .ret (dir, imApp?, none) =>
  let rktApp1 := p.app
  match imApp? with
  | none => ⟨t3, .panic "runtime error: invalid memory address or nil pointer dereference"⟩
  | some imApp =>
  match rktApp1.Last with
  | none => ⟨t3, .panic "runtime error: invalid memory address or nil pointer dereference"⟩
  | some app =>
  let execargs := imApp.Exec ++ app.Args
  let rfs := w.join dir "rootfs"
  let t4 := t3 ++ [Event.chdir rfs (w.chdir rfs)]
  match w.chdir rfs with
  | some err =>
    ⟨t4 ++ [.removeAll dir, .stderr "fly: error changing directory: %v" [err]], .ret 1⟩
  | none =>
  let t5 := t4 ++ [Event.chroot "." (w.chroot ".")]
  match w.chroot "." with
  | some err =>
    ⟨t5 ++ [.removeAll dir, .stderr "fly: error chrooting: %v" [err]], .ret 1⟩
  | none =>
  match execargs with
  | [] => ⟨t5, .panic "runtime error: index out of range"⟩
  | execPath :: _ =>
  let t6 := t5 ++ [Event.stat execPath (w.stat execPath)]
  match w.stat execPath with
  | some err =>
    ⟨t6 ++ [.removeAll dir, .stderr "fly: error finding exec %v: %v" [execPath, err]], .ret 1⟩
  | none =>
  let t7 := t6 ++ [Event.exec execPath execargs w.environ (w.exec execPath execargs w.environ)]
  match w.exec execPath execargs w.environ with
  | .failed err =>
    ⟨t7 ++ [.removeAll dir, .stderr "fly: error execing: %v" [err]], .ret 1⟩
  | .replaced => ⟨t7, .replaced⟩
  | .returnedNil => ⟨t7, .panic "exec did not occur!"⟩

/-! ## Observations on traces -/

/-- The paths of the `os.RemoveAll` calls of a trace, in order. -/
def removals (tr : List Event) : List String :=
  tr.filterMap fun e => match e with
    | .removeAll p => some p
    | _ => none

/-- The `os.MkdirAll` calls of a trace, in order: path and mode. -/
def mkdirs (tr : List Event) : List (String × Nat) :=
  tr.filterMap fun e => match e with
    | .mkdirAll p m _ => some (p, m)
    | _ => none

/-- The four handoff steps: chdir, chroot, stat, exec. -/
inductive Step where
  | chdir | chroot | stat | exec
  deriving DecidableEq, Repr

/-- The handoff step an event is a call of, if any. -/
def Event.step? : Event → Option Step
  | .chdir _ _ => some .chdir
  | .chroot _ _ => some .chroot
  | .stat _ _ => some .stat
  | .exec _ _ _ _ => some .exec
  | _ => none

/-- The handoff steps of a trace, in order. -/
def steps (tr : List Event) : List Step := tr.filterMap Event.step?

/-- An event is a handoff call or a removal. -/
def Event.isFsAction : Event → Bool
  | .removeAll _ => true
  | e => e.step?.isSome

/-- The handoff and removal calls of a trace, in order, other events dropped. -/
def fsActions (tr : List Event) : List Event := tr.filter Event.isFsAction

/-- A handoff call that returned an error. -/
def Event.failedStep : Event → Bool
  | .chdir _ (some _) => true
  | .chroot _ (some _) => true
  | .stat _ (some _) => true
  | .exec _ _ _ (.failed _) => true
  | _ => false

/-- `runFly` reaches its call of `runFlyPrepareApp` with globals `g1` and apps
`rktApp`: the arguments parse to exactly one image and, when the store
directory is unset, a temporary directory `d` was created and assigned. -/
def ReachesPrepare (w : World) (g : Globals) (args : List String)
    (g1 : Globals) (rktApp : Apps) : Prop :=
  w.parseApps args true = .ok rktApp ∧ rktApp.Count = 1 ∧
    ((g.globalFlags.Dir ≠ "" ∧ g1 = g) ∨
      (g.globalFlags.Dir = "" ∧ ∃ d, w.tempDir "" "rkt" = .ok d ∧ g1 = g.setDir d))

/-- The part of `runFly` that follows a successful preparation (from the
construction of `execargs` to the end), as a function of the trace `t3` so far,
the staged directory `dir`, the application section `imApp` and the last image
`app`.  It restates those lines of `runFly` for use in proofs; `runFly_cases`
shows that `runFly` continues exactly so. -/
def handoffRun (w : World) (t3 : List Event) (dir : String) (imApp : App) (app : RktApp) :
    FlyRun :=
  let execargs := imApp.Exec ++ app.Args
  let rfs := w.join dir "rootfs"
  let t4 := t3 ++ [Event.chdir rfs (w.chdir rfs)]
  match w.chdir rfs with
  | some err =>
    ⟨t4 ++ [.removeAll dir, .stderr "fly: error changing directory: %v" [err]], .ret 1⟩
  | none =>
  let t5 := t4 ++ [Event.chroot "." (w.chroot ".")]
  match w.chroot "." with
  | some err =>
    ⟨t5 ++ [.removeAll dir, .stderr "fly: error chrooting: %v" [err]], .ret 1⟩
  | none =>
  match execargs with
  | [] => ⟨t5, .panic "runtime error: index out of range"⟩
  | execPath :: _ =>
  let t6 := t5 ++ [Event.stat execPath (w.stat execPath)]
  match w.stat execPath with
  | some err =>
    ⟨t6 ++ [.removeAll dir, .stderr "fly: error finding exec %v: %v" [execPath, err]], .ret 1⟩
  | none =>
  let t7 := t6 ++ [Event.exec execPath execargs w.environ (w.exec execPath execargs w.environ)]
  match w.exec execPath execargs w.environ with
  | .failed err =>
    ⟨t7 ++ [.removeAll dir, .stderr "fly: error execing: %v" [err]], .ret 1⟩
  | .replaced => ⟨t7, .replaced⟩
  | .returnedNil => ⟨t7, .panic "exec did not occur!"⟩

/-! ## Concrete worlds -/

/-- The command line `fly example.com/echo -- hello`, as parsed. -/
def demoApps : Apps := ⟨[⟨"example.com/echo", ["hello"], ⟨"", ""⟩⟩]⟩

/-- The identifier the finder resolves the demo image to. -/
def demoID : Hash := ⟨"sha512", "a1b2"⟩

/-- The application section of the demo image: exec `/bin/echo`. -/
def demoApp : App := ⟨["/bin/echo"], "0", "0"⟩

/-- The demo command line after image resolution. -/
def demoFound : Apps := ⟨[⟨"example.com/echo", ["hello"], demoID⟩]⟩

/-- Globals with the store directory set. -/
def demoGlobals : Globals := ⟨⟨"/var/lib/rkt", false, false⟩, false⟩

/-- A world in which every step succeeds and `execve` replaces the process. -/
def demoWorld : World where
  parseApps := fun _ _ => .ok demoApps
  tempDir := fun _ _ => .ok "/tmp/rkt1"
  newStore := fun _ => .ok ⟨1⟩
  getConfig := .ok ⟨[], []⟩
  getKeystore := ⟨1⟩
  findImages := fun _ al => (⟨al.apps.map fun a => ⟨a.Image, a.Args, demoID⟩⟩, none)
  newUUID := .ok "u1"
  flightDir := fun g => g.globalFlags.Dir ++ "/fly"
  join := fun a b => a ++ "/" ++ b
  mkdirAll := fun _ _ => none
  getImageManifest := fun _ _ => .ok ⟨"example.com/echo", [("os", "linux")], some demoApp⟩
  renderACI := fun _ _ _ _ => none
  chdir := fun _ => none
  chroot := fun _ => none
  stat := fun _ => none
  exec := fun _ _ _ => .replaced
  environ := ["PATH=/bin"]

/-- The staged directory of the demo world. -/
def demoDir : String := "/var/lib/rkt/fly/u1"

/-- The demo world with a manifest that has no application section. -/
def noAppWorld : World :=
  { demoWorld with
    getImageManifest := fun _ _ => .ok ⟨"example.com/echo", [("os", "linux")], none⟩ }

/-- The demo world with a store that cannot be opened. -/
def storeFailWorld : World := { demoWorld with newStore := fun _ => .error "no store" }

/-- The demo world with a configuration that cannot be loaded. -/
def configFailWorld : World := { demoWorld with getConfig := .error "bad config" }

/-- The demo world with an image that cannot be found. -/
def findFailWorld : World := { demoWorld with findImages := fun _ al => (al, some "not found") }

/-- The demo world with a failing UUID constructor. -/
def uuidFailWorld : World := { demoWorld with newUUID := .error "bad uuid" }

/-- The demo world with a failing `os.MkdirAll`. -/
def mkdirFailWorld : World := { demoWorld with mkdirAll := fun _ _ => some "EACCES" }

/-- The demo world with a store that has no manifest for the image. -/
def manifestFailWorld : World :=
  { demoWorld with getImageManifest := fun _ _ => .error "no manifest" }

/-- The demo world with a failing renderer. -/
def renderFailWorld : World := { demoWorld with renderACI := fun _ _ _ _ => some "ENOSPC" }

/-- The demo world with a failing `os.Chdir`. -/
def chdirFailWorld : World := { demoWorld with chdir := fun _ => some "ENOENT" }

/-- The demo world with a failing `syscall.Chroot`. -/
def chrootFailWorld : World := { demoWorld with chroot := fun _ => some "EPERM" }

/-- The demo world with a failing `os.Stat`. -/
def statFailWorld : World := { demoWorld with stat := fun _ => some "ENOENT" }

/-- The demo world with a failing `syscall.Exec`. -/
def execFailWorld : World := { demoWorld with exec := fun _ _ _ => .failed "EACCES" }

/-- The demo command line, unparsed. -/
def demoArgs : List String := ["example.com/echo", "--", "hello"]

/-- The `rootfs` directory of the demo world. -/
def demoRootfs : String := "/var/lib/rkt/fly/u1/rootfs"

end Fly

namespace Fly

/-! ## runFlyPrepareApp -/

theorem steps_append (a b : List Event) : steps (a ++ b) = steps a ++ steps b := by
  simp [steps]

theorem removals_append (a b : List Event) : removals (a ++ b) = removals a ++ removals b := by
  simp [removals]

theorem fsActions_append (a b : List Event) :
    fsActions (a ++ b) = fsActions a ++ fsActions b := by
  simp [fsActions]

/-- The preparation makes no handoff call. -/
theorem prepare_steps (w : World) (g : Globals) (app : Apps) :
    steps (runFlyPrepareApp w g app).trace = [] := by
  unfold runFlyPrepareApp
  simp only []
  repeat' split
  all_goals simp [steps, Event.step?]

/-- A preparation that hands a directory and an application section to its
caller has removed nothing, returns a nil error and leaves a last image. -/
theorem prepare_handover (w : World) (g : Globals) (app : Apps) (dir : String) (imApp : App)
    (e : Option GoError)
    (h : (runFlyPrepareApp w g app).out = .ret (dir, some imApp, e)) :
    removals (runFlyPrepareApp w g app).trace = [] ∧ e = none ∧
      (runFlyPrepareApp w g app).app.Last ≠ none := by
  revert h
  unfold runFlyPrepareApp
  simp only []
  repeat' split
  all_goals simp_all [removals]

/-- C1 (the code diverges): with store, configuration, image, directory and
manifest all obtained and a manifest without application section,
`runFlyPrepareApp` removes the directory, prints its message and returns the
error variable, which at that point holds the nil of the successful manifest
fetch: the returned error is nil. -/
theorem runFlyPrepareApp_noApp_returns_nil_error :
    runFlyPrepareApp noAppWorld demoGlobals demoApps =
      ⟨[.newStore "/var/lib/rkt", .getConfig, .getKeystore, .findImages, .newUUID,
        .mkdirAll demoDir 0o700 none, .getImageManifest "sha512-a1b2",
        .removeAll demoDir, .stderr "fly: image has no App section" []],
       demoFound, .ret ("", none, none)⟩ := by
  decide

/-- In every world: whenever the manifest is fetched and has no application
section, the error returned by `runFlyPrepareApp` is nil. -/
theorem prepare_noApp_nil_error (w : World) (g : Globals) (app app1 : Apps) (s : Store)
    (config : Config) (u : String) (rktApp : RktApp) (image : ImageManifest)
    (hstore : w.newStore g.globalFlags.Dir = .ok s)
    (hconfig : w.getConfig = .ok config)
    (hfind : w.findImages (flyFinder w g s config) app = (app1, none))
    (huuid : w.newUUID = .ok u)
    (hmkdir : w.mkdirAll (w.join (w.flightDir g) u) mode0700 = none)
    (hlast : app1.Last = some rktApp)
    (hman : w.getImageManifest s rktApp.ImageID.String = .ok image)
    (happ : image.App = none) :
    (runFlyPrepareApp w g app).out = .ret ("", none, none) := by
  simp only [mode0700] at hmkdir
  simp [mode0700, runFlyPrepareApp, hstore, hconfig, hfind, huuid, hmkdir, hlast, hman, happ]

/-- C2: once the directory `dir` has been created, a failure of the manifest
fetch, an absent application section or a failure of the renderer makes
`runFlyPrepareApp` issue exactly one recursive removal, of `dir`, the only
directory it created, after the creation and after the failing step and before
it returns, and return an empty path and a nil manifest.  For each of the
three failures the whole run is given, call by call and in order. -/
theorem runFlyPrepareApp_cleanup (w : World) (g : Globals) (app app1 : Apps) (s : Store)
    (config : Config) (u : String) (rktApp : RktApp)
    (hstore : w.newStore g.globalFlags.Dir = .ok s)
    (hconfig : w.getConfig = .ok config)
    (hfind : w.findImages (flyFinder w g s config) app = (app1, none))
    (huuid : w.newUUID = .ok u)
    (hmkdir : w.mkdirAll (w.join (w.flightDir g) u) mode0700 = none)
    (hlast : app1.Last = some rktApp) :
    (∀ e, w.getImageManifest s rktApp.ImageID.String = .error e →
      (runFlyPrepareApp w g app).trace
        = [.newStore g.globalFlags.Dir, .getConfig, .getKeystore, .findImages, .newUUID,
            .mkdirAll (w.join (w.flightDir g) u) 0o700 none,
            .getImageManifest rktApp.ImageID.String,
            .removeAll (w.join (w.flightDir g) u),
            .stderr "fly: error getting image manifest: %v" [e]] ∧
      removals (runFlyPrepareApp w g app).trace = [w.join (w.flightDir g) u] ∧
      mkdirs (runFlyPrepareApp w g app).trace = [(w.join (w.flightDir g) u, 0o700)] ∧
      ∃ e1, (runFlyPrepareApp w g app).out = .ret ("", none, e1)) ∧
    (∀ image, w.getImageManifest s rktApp.ImageID.String = .ok image → image.App = none →
      (runFlyPrepareApp w g app).trace
        = [.newStore g.globalFlags.Dir, .getConfig, .getKeystore, .findImages, .newUUID,
            .mkdirAll (w.join (w.flightDir g) u) 0o700 none,
            .getImageManifest rktApp.ImageID.String,
            .removeAll (w.join (w.flightDir g) u),
            .stderr "fly: image has no App section" []] ∧
      removals (runFlyPrepareApp w g app).trace = [w.join (w.flightDir g) u] ∧
      mkdirs (runFlyPrepareApp w g app).trace = [(w.join (w.flightDir g) u, 0o700)] ∧
      ∃ e1, (runFlyPrepareApp w g app).out = .ret ("", none, e1)) ∧
    (∀ image imApp e, w.getImageManifest s rktApp.ImageID.String = .ok image →
      image.App = some imApp →
      w.renderACI rktApp.ImageID (w.join (w.flightDir g) u) s NewBlankUidRange = some e →
      (runFlyPrepareApp w g app).trace
        = [.newStore g.globalFlags.Dir, .getConfig, .getKeystore, .findImages, .newUUID,
            .mkdirAll (w.join (w.flightDir g) u) 0o700 none,
            .getImageManifest rktApp.ImageID.String,
            .renderACI rktApp.ImageID (w.join (w.flightDir g) u),
            .removeAll (w.join (w.flightDir g) u),
            .stderr "fly: error rendering ACI: %v" [e]] ∧
      removals (runFlyPrepareApp w g app).trace = [w.join (w.flightDir g) u] ∧
      mkdirs (runFlyPrepareApp w g app).trace = [(w.join (w.flightDir g) u, 0o700)] ∧
      ∃ e1, (runFlyPrepareApp w g app).out = .ret ("", none, e1)) := by
  simp only [mode0700] at hmkdir
  refine ⟨?_, ?_, ?_⟩
  · intro e hman
    simp [runFlyPrepareApp, hstore, hconfig, hfind, huuid, hmkdir, hlast, hman,
      removals, mkdirs, mode0700]
  · intro image hman happ
    simp [runFlyPrepareApp, hstore, hconfig, hfind, huuid, hmkdir, hlast, hman, happ,
      removals, mkdirs, mode0700]
  · intro image imApp e hman happ hrender
    simp [runFlyPrepareApp, hstore, hconfig, hfind, huuid, hmkdir, hlast, hman, happ, hrender,
      removals, mkdirs, mode0700]

/-- Witness of C2 in three worlds: the manifest fetch fails, the application
section is absent, the renderer fails. -/
theorem runFlyPrepareApp_cleanup_witness :
    ((runFlyPrepareApp manifestFailWorld demoGlobals demoApps).trace
        = [.newStore "/var/lib/rkt", .getConfig, .getKeystore, .findImages, .newUUID,
            .mkdirAll demoDir 0o700 none, .getImageManifest "sha512-a1b2",
            .removeAll demoDir, .stderr "fly: error getting image manifest: %v" ["no manifest"]] ∧
      removals (runFlyPrepareApp manifestFailWorld demoGlobals demoApps).trace = [demoDir] ∧
      mkdirs (runFlyPrepareApp manifestFailWorld demoGlobals demoApps).trace
        = [(demoDir, 0o700)] ∧
      ∃ e, (runFlyPrepareApp manifestFailWorld demoGlobals demoApps).out
        = .ret ("", none, e)) ∧
    ((runFlyPrepareApp noAppWorld demoGlobals demoApps).trace
        = [.newStore "/var/lib/rkt", .getConfig, .getKeystore, .findImages, .newUUID,
            .mkdirAll demoDir 0o700 none, .getImageManifest "sha512-a1b2",
            .removeAll demoDir, .stderr "fly: image has no App section" []] ∧
      removals (runFlyPrepareApp noAppWorld demoGlobals demoApps).trace = [demoDir] ∧
      mkdirs (runFlyPrepareApp noAppWorld demoGlobals demoApps).trace = [(demoDir, 0o700)] ∧
      ∃ e, (runFlyPrepareApp noAppWorld demoGlobals demoApps).out = .ret ("", none, e)) ∧
    ((runFlyPrepareApp renderFailWorld demoGlobals demoApps).trace
        = [.newStore "/var/lib/rkt", .getConfig, .getKeystore, .findImages, .newUUID,
            .mkdirAll demoDir 0o700 none, .getImageManifest "sha512-a1b2",
            .renderACI demoID demoDir, .removeAll demoDir,
            .stderr "fly: error rendering ACI: %v" ["ENOSPC"]] ∧
      removals (runFlyPrepareApp renderFailWorld demoGlobals demoApps).trace = [demoDir] ∧
      mkdirs (runFlyPrepareApp renderFailWorld demoGlobals demoApps).trace
        = [(demoDir, 0o700)] ∧
      ∃ e, (runFlyPrepareApp renderFailWorld demoGlobals demoApps).out
        = .ret ("", none, e)) :=
  ⟨(runFlyPrepareApp_cleanup manifestFailWorld demoGlobals demoApps demoFound ⟨1⟩ ⟨[], []⟩ "u1"
      ⟨"example.com/echo", ["hello"], demoID⟩ rfl rfl rfl rfl rfl rfl).1 "no manifest" rfl,
   (runFlyPrepareApp_cleanup noAppWorld demoGlobals demoApps demoFound ⟨1⟩ ⟨[], []⟩ "u1"
      ⟨"example.com/echo", ["hello"], demoID⟩ rfl rfl rfl rfl rfl rfl).2.1
      ⟨"example.com/echo", [("os", "linux")], none⟩ rfl rfl,
   (runFlyPrepareApp_cleanup renderFailWorld demoGlobals demoApps demoFound ⟨1⟩ ⟨[], []⟩ "u1"
      ⟨"example.com/echo", ["hello"], demoID⟩ rfl rfl rfl rfl rfl rfl).2.2
      ⟨"example.com/echo", [("os", "linux")], some demoApp⟩ demoApp "ENOSPC" rfl rfl rfl⟩

/-- C8: a failure before the directory exists (store, configuration, image
resolution, UUID, or the directory creation itself) makes `runFlyPrepareApp`
return the underlying error with an empty path and a nil manifest, having
issued no removal; in the first four cases it has issued no directory creation
either, and in the fifth only the failed one. -/
theorem runFlyPrepareApp_early_failure (w : World) (g : Globals) (app : Apps) :
    (∀ e, w.newStore g.globalFlags.Dir = .error e →
      removals (runFlyPrepareApp w g app).trace = [] ∧
      mkdirs (runFlyPrepareApp w g app).trace = [] ∧
      (runFlyPrepareApp w g app).out = .ret ("", none, some e)) ∧
    (∀ s e, w.newStore g.globalFlags.Dir = .ok s → w.getConfig = .error e →
      removals (runFlyPrepareApp w g app).trace = [] ∧
      mkdirs (runFlyPrepareApp w g app).trace = [] ∧
      (runFlyPrepareApp w g app).out = .ret ("", none, some e)) ∧
    (∀ s config app1 e, w.newStore g.globalFlags.Dir = .ok s → w.getConfig = .ok config →
      w.findImages (flyFinder w g s config) app = (app1, some e) →
      removals (runFlyPrepareApp w g app).trace = [] ∧
      mkdirs (runFlyPrepareApp w g app).trace = [] ∧
      (runFlyPrepareApp w g app).out = .ret ("", none, some e)) ∧
    (∀ s config app1 e, w.newStore g.globalFlags.Dir = .ok s → w.getConfig = .ok config →
      w.findImages (flyFinder w g s config) app = (app1, none) → w.newUUID = .error e →
      removals (runFlyPrepareApp w g app).trace = [] ∧
      mkdirs (runFlyPrepareApp w g app).trace = [] ∧
      (runFlyPrepareApp w g app).out = .ret ("", none, some e)) ∧
    (∀ s config app1 u e, w.newStore g.globalFlags.Dir = .ok s → w.getConfig = .ok config →
      w.findImages (flyFinder w g s config) app = (app1, none) → w.newUUID = .ok u →
      w.mkdirAll (w.join (w.flightDir g) u) mode0700 = some e →
      removals (runFlyPrepareApp w g app).trace = [] ∧
      mkdirs (runFlyPrepareApp w g app).trace = [(w.join (w.flightDir g) u, 0o700)] ∧
      (runFlyPrepareApp w g app).out = .ret ("", none, some e)) := by
  refine ⟨?_, ?_, ?_, ?_, ?_⟩
  · intro e h1
    simp [runFlyPrepareApp, h1, removals, mkdirs]
  · intro s e h1 h2
    simp [runFlyPrepareApp, h1, h2, removals, mkdirs]
  · intro s config app1 e h1 h2 h3
    simp [runFlyPrepareApp, h1, h2, h3, removals, mkdirs]
  · intro s config app1 e h1 h2 h3 h4
    simp [runFlyPrepareApp, h1, h2, h3, h4, removals, mkdirs]
  · intro s config app1 u e h1 h2 h3 h4 h5
    simp only [mode0700] at h5
    simp [runFlyPrepareApp, h1, h2, h3, h4, h5, removals, mkdirs, mode0700]

/-- Witness of C8 in five worlds, one for each early failure. -/
theorem runFlyPrepareApp_early_failure_witness :
    (removals (runFlyPrepareApp storeFailWorld demoGlobals demoApps).trace = [] ∧
      mkdirs (runFlyPrepareApp storeFailWorld demoGlobals demoApps).trace = [] ∧
      (runFlyPrepareApp storeFailWorld demoGlobals demoApps).out
        = .ret ("", none, some "no store")) ∧
    (removals (runFlyPrepareApp configFailWorld demoGlobals demoApps).trace = [] ∧
      mkdirs (runFlyPrepareApp configFailWorld demoGlobals demoApps).trace = [] ∧
      (runFlyPrepareApp configFailWorld demoGlobals demoApps).out
        = .ret ("", none, some "bad config")) ∧
    (removals (runFlyPrepareApp findFailWorld demoGlobals demoApps).trace = [] ∧
      mkdirs (runFlyPrepareApp findFailWorld demoGlobals demoApps).trace = [] ∧
      (runFlyPrepareApp findFailWorld demoGlobals demoApps).out
        = .ret ("", none, some "not found")) ∧
    (removals (runFlyPrepareApp uuidFailWorld demoGlobals demoApps).trace = [] ∧
      mkdirs (runFlyPrepareApp uuidFailWorld demoGlobals demoApps).trace = [] ∧
      (runFlyPrepareApp uuidFailWorld demoGlobals demoApps).out
        = .ret ("", none, some "bad uuid")) ∧
    (removals (runFlyPrepareApp mkdirFailWorld demoGlobals demoApps).trace = [] ∧
      mkdirs (runFlyPrepareApp mkdirFailWorld demoGlobals demoApps).trace
        = [(demoDir, 0o700)] ∧
      (runFlyPrepareApp mkdirFailWorld demoGlobals demoApps).out
        = .ret ("", none, some "EACCES")) :=
  ⟨(runFlyPrepareApp_early_failure storeFailWorld demoGlobals demoApps).1 "no store" rfl,
   (runFlyPrepareApp_early_failure configFailWorld demoGlobals demoApps).2.1 ⟨1⟩ "bad config"
      rfl rfl,
   (runFlyPrepareApp_early_failure findFailWorld demoGlobals demoApps).2.2.1 ⟨1⟩ ⟨[], []⟩
      demoApps "not found" rfl rfl rfl,
   (runFlyPrepareApp_early_failure uuidFailWorld demoGlobals demoApps).2.2.2.1 ⟨1⟩ ⟨[], []⟩
      demoFound "bad uuid" rfl rfl rfl rfl,
   (runFlyPrepareApp_early_failure mkdirFailWorld demoGlobals demoApps).2.2.2.2 ⟨1⟩ ⟨[], []⟩
      demoFound "u1" "EACCES" rfl rfl rfl rfl rfl⟩

/-- C9: when every step succeeds, `runFlyPrepareApp` creates exactly one
directory, `join(flightDir(), u)` for the generated UUID string `u`, with mode
0700, removes nothing, and returns that path with the application section of
the manifest fetched for the resolved image identifier and a nil error. -/
theorem runFlyPrepareApp_success (w : World) (g : Globals) (app app1 : Apps) (s : Store)
    (config : Config) (u : String) (rktApp : RktApp) (image : ImageManifest) (imApp : App)
    (hstore : w.newStore g.globalFlags.Dir = .ok s)
    (hconfig : w.getConfig = .ok config)
    (hfind : w.findImages (flyFinder w g s config) app = (app1, none))
    (huuid : w.newUUID = .ok u)
    (hmkdir : w.mkdirAll (w.join (w.flightDir g) u) mode0700 = none)
    (hlast : app1.Last = some rktApp)
    (hman : w.getImageManifest s rktApp.ImageID.String = .ok image)
    (happ : image.App = some imApp)
    (hrender :
      w.renderACI rktApp.ImageID (w.join (w.flightDir g) u) s NewBlankUidRange = none) :
    mkdirs (runFlyPrepareApp w g app).trace = [(w.join (w.flightDir g) u, 0o700)] ∧
    removals (runFlyPrepareApp w g app).trace = [] ∧
    (runFlyPrepareApp w g app).out = .ret (w.join (w.flightDir g) u, some imApp, none) := by
  simp only [mode0700] at hmkdir
  simp [runFlyPrepareApp, hstore, hconfig, hfind, huuid, hmkdir, hlast, hman, happ, hrender,
    removals, mkdirs, mode0700]

/-- Witness of C9 in the demo world. -/
theorem runFlyPrepareApp_success_witness :
    mkdirs (runFlyPrepareApp demoWorld demoGlobals demoApps).trace = [(demoDir, 0o700)] ∧
    removals (runFlyPrepareApp demoWorld demoGlobals demoApps).trace = [] ∧
    (runFlyPrepareApp demoWorld demoGlobals demoApps).out
      = .ret (demoDir, some demoApp, none) :=
  runFlyPrepareApp_success demoWorld demoGlobals demoApps demoFound ⟨1⟩ ⟨[], []⟩ "u1"
    ⟨"example.com/echo", ["hello"], demoID⟩ ⟨"example.com/echo", [("os", "linux")], some demoApp⟩
    demoApp rfl rfl rfl rfl rfl rfl rfl rfl rfl

/-! ## runFly -/

theorem steps_nil : steps [] = [] := rfl

/-- A trace without handoff steps holds no handoff call. -/
theorem steps_nil_mem {tr : List Event} (h : steps tr = []) {e : Event} (he : e ∈ tr) :
    e.step? = none := by
  simp only [steps, List.filterMap_eq_nil_iff] at h
  exact h e he

theorem steps_cons (e : Event) (tr : List Event) :
    steps (e :: tr) = (match e.step? with
      | some s => s :: steps tr
      | none => steps tr) := by
  simp only [steps, List.filterMap_cons]
  cases e.step? <;> rfl

theorem fsActions_nil : fsActions [] = [] := rfl

theorem fsActions_cons (e : Event) (tr : List Event) :
    fsActions (e :: tr) = if e.isFsAction then e :: fsActions tr else fsActions tr := by
  simp only [fsActions, List.filter_cons]

theorem removals_nil : removals [] = [] := rfl

theorem removals_cons (e : Event) (tr : List Event) :
    removals (e :: tr) = (match e with
      | .removeAll p => p :: removals tr
      | _ => removals tr) := by
  cases e <;> simp [removals, List.filterMap_cons]

/-- A handoff call or removal is in a trace exactly when it is among its
file-system actions. -/
theorem mem_fsActions (e : Event) (tr : List Event) (h : e.isFsAction = true) :
    e ∈ tr ↔ e ∈ fsActions tr := by
  simp [fsActions, List.mem_filter, h]

theorem steps_fsActions (tr : List Event) : steps (fsActions tr) = steps tr := by
  induction tr with
  | nil => rfl
  | cons e tr ih =>
    cases e <;> simp [fsActions_cons, steps_cons, Event.isFsAction, Event.step?, ih]

theorem removals_fsActions (tr : List Event) : removals (fsActions tr) = removals tr := by
  induction tr with
  | nil => rfl
  | cons e tr ih =>
    cases e <;> simp [fsActions_cons, removals_cons, Event.isFsAction, Event.step?, ih]

/-- A preparation that hands over a directory has made no handoff call and no
removal. -/
theorem prepare_fsActions (w : World) (g : Globals) (app : Apps) (dir : String) (imApp : App)
    (e : Option GoError)
    (h : (runFlyPrepareApp w g app).out = .ret (dir, some imApp, e)) :
    fsActions (runFlyPrepareApp w g app).trace = [] := by
  revert h
  unfold runFlyPrepareApp
  simp only []
  repeat' split
  all_goals simp_all [fsActions, Event.isFsAction, Event.step?]

/-- Every run of `runFly` either ends before any handoff call, not by process
replacement and with status 1 if it returns, or reaches the handoff after a
preparation that handed over `dir` and `imApp`, and then continues as
`handoffRun`. -/
theorem runFly_cases (w : World) (g : Globals) (args : List String) :
    (steps (runFly w g args).trace = [] ∧ (runFly w g args).out ≠ .replaced ∧
      (∀ n, (runFly w g args).out = .ret n → n = 1)) ∨
    (∃ g1 rktApp dir imApp a t3, ReachesPrepare w g args g1 rktApp ∧
      (runFlyPrepareApp w g1 rktApp).out = .ret (dir, some imApp, none) ∧
      (runFlyPrepareApp w g1 rktApp).app.Last = some a ∧
      fsActions t3 = [] ∧ runFly w g args = handoffRun w t3 dir imApp a) := by
  generalize hr : runFly w g args = r
  unfold runFly at hr
  simp only [] at hr
  cases hp : w.parseApps args true with
  | error e =>
    simp only [hp] at hr
    subst hr
    left; simp [steps_cons, steps_nil, steps_append, prepare_steps, Event.step?]
  | ok rktApp =>
    simp only [hp] at hr
    by_cases hc : rktApp.Count = 1
    · simp only [hc, ne_eq, not_true_eq_false, if_false] at hr
      by_cases hd : g.globalFlags.Dir = ""
      · simp only [hd, if_true] at hr
        cases ht : w.tempDir "" "rkt" with
        | error e =>
          simp only [ht] at hr
          subst hr
          left; simp [steps_cons, steps_nil, steps_append, prepare_steps, Event.step?]
        | ok d =>
          simp only [ht] at hr
          split at hr
          · subst hr
            left; simp [steps_cons, steps_nil, steps_append, prepare_steps, Event.step?]
          · subst hr
            left; simp [steps_cons, steps_nil, steps_append, prepare_steps, Event.step?]
          · rename_i dir imApp hout
            split at hr
            · subst hr
              left; simp [steps_cons, steps_nil, steps_append, prepare_steps, Event.step?]
            · rename_i imApp
              split at hr
              · subst hr
                left; simp [steps_cons, steps_nil, steps_append, prepare_steps, Event.step?]
              · rename_i a hlast
                subst hr
                right
                exact ⟨g.setDir d, rktApp, dir, imApp, a, _, ⟨hp, hc, Or.inr ⟨hd, d, ht, rfl⟩⟩,
                  hout, hlast, by
                  simp [fsActions_append, prepare_fsActions _ _ _ _ _ _ hout, fsActions_cons,
                    fsActions_nil, Event.isFsAction, Event.step?], rfl⟩
      · simp only [hd, if_false] at hr
        split at hr
        · subst hr
          left; simp [steps_cons, steps_nil, steps_append, prepare_steps, Event.step?]
        · subst hr
          left; simp [steps_cons, steps_nil, steps_append, prepare_steps, Event.step?]
        · rename_i dir imApp hout
          split at hr
          · subst hr
            left; simp [steps_cons, steps_nil, steps_append, prepare_steps, Event.step?]
          · rename_i imApp
            split at hr
            · subst hr
              left; simp [steps_cons, steps_nil, steps_append, prepare_steps, Event.step?]
            · rename_i a hlast
              subst hr
              right
              exact ⟨g, rktApp, dir, imApp, a, _, ⟨hp, hc, Or.inl ⟨hd, rfl⟩⟩,
                hout, hlast, by
                  simp [fsActions_append, prepare_fsActions _ _ _ _ _ _ hout, fsActions_cons,
                    fsActions_nil, Event.isFsAction, Event.step?], rfl⟩
    · simp only [hc, ne_eq, not_false_eq_true, if_true] at hr
      subst hr
      left; simp [steps_cons, steps_nil, steps_append, prepare_steps, Event.step?]

/-- After a preparation that handed over `dir` and `imApp`, `runFly` continues
as `handoffRun`, on a trace that so far holds no handoff call and no removal. -/
theorem runFly_of_prepared (w : World) (g g1 : Globals) (args : List String) (rktApp : Apps)
    (dir : String) (imApp : App) (a : RktApp)
    (hreach : ReachesPrepare w g args g1 rktApp)
    (hprep : (runFlyPrepareApp w g1 rktApp).out = .ret (dir, some imApp, none))
    (hlast : (runFlyPrepareApp w g1 rktApp).app.Last = some a) :
    ∃ t3, fsActions t3 = [] ∧ runFly w g args = handoffRun w t3 dir imApp a := by
  obtain ⟨hp, hc, hg⟩ := hreach
  have hpf := prepare_fsActions w g1 rktApp dir imApp none hprep
  rcases hg with ⟨hd, rfl⟩ | ⟨hd, d, ht, rfl⟩
  · refine ⟨[Event.parseApps args] ++ (runFlyPrepareApp w g1 rktApp).trace, ?_, ?_⟩
    · simp [fsActions_append, hpf, fsActions_cons, fsActions_nil, Event.isFsAction, Event.step?]
    · simp [runFly, hp, hc, hd, hprep, hlast, handoffRun]
  · refine ⟨[Event.parseApps args, Event.logPrintf "fly: dir unset - using temporary directory",
        Event.tempDir "" "rkt"] ++ (runFlyPrepareApp w (g.setDir d) rktApp).trace, ?_, ?_⟩
    · simp [fsActions_append, hpf, fsActions_cons, fsActions_nil, Event.isFsAction, Event.step?]
    · simp [runFly, hp, hc, hd, ht, hprep, hlast, handoffRun]

/-- C3: after a preparation that staged `dir`, the first failing handoff step
(chdir to `dir/rootfs`, chroot, stat of the entrypoint, exec) is followed by a
recursive removal of `dir` and by no further handoff step, and `runFly`
returns status 1.  The handoff calls and removals of the run are listed in
order. -/
theorem runFly_handoff_failure (w : World) (g g1 : Globals) (args : List String)
    (rktApp : Apps) (dir : String) (imApp : App) (a : RktApp)
    (hreach : ReachesPrepare w g args g1 rktApp)
    (hprep : (runFlyPrepareApp w g1 rktApp).out = .ret (dir, some imApp, none))
    (hlast : (runFlyPrepareApp w g1 rktApp).app.Last = some a) :
    (∀ e, w.chdir (w.join dir "rootfs") = some e →
      fsActions (runFly w g args).trace
        = [.chdir (w.join dir "rootfs") (some e), .removeAll dir] ∧
      (runFly w g args).out = .ret 1) ∧
    (∀ e, w.chdir (w.join dir "rootfs") = none → w.chroot "." = some e →
      fsActions (runFly w g args).trace
        = [.chdir (w.join dir "rootfs") none, .chroot "." (some e), .removeAll dir] ∧
      (runFly w g args).out = .ret 1) ∧
    (∀ p rest e, w.chdir (w.join dir "rootfs") = none → w.chroot "." = none →
      imApp.Exec ++ a.Args = p :: rest → w.stat p = some e →
      fsActions (runFly w g args).trace
        = [.chdir (w.join dir "rootfs") none, .chroot "." none, .stat p (some e),
            .removeAll dir] ∧
      (runFly w g args).out = .ret 1) ∧
    (∀ p rest e, w.chdir (w.join dir "rootfs") = none → w.chroot "." = none →
      imApp.Exec ++ a.Args = p :: rest → w.stat p = none →
      w.exec p (imApp.Exec ++ a.Args) w.environ = .failed e →
      fsActions (runFly w g args).trace
        = [.chdir (w.join dir "rootfs") none, .chroot "." none, .stat p none,
            .exec p (imApp.Exec ++ a.Args) w.environ (.failed e), .removeAll dir] ∧
      (runFly w g args).out = .ret 1) := by
  obtain ⟨t3, ht3, heq⟩ := runFly_of_prepared w g g1 args rktApp dir imApp a hreach hprep hlast
  rw [heq]
  refine ⟨?_, ?_, ?_, ?_⟩
  · intro e h1
    simp [handoffRun, h1, fsActions_append, ht3, fsActions_cons, fsActions_nil,
      Event.isFsAction, Event.step?]
  · intro e h1 h2
    simp [handoffRun, h1, h2, fsActions_append, ht3, fsActions_cons, fsActions_nil,
      Event.isFsAction, Event.step?]
  · intro p rest e h1 h2 h3 h4
    simp [handoffRun, h1, h2, h3, h4, fsActions_append, ht3, fsActions_cons, fsActions_nil,
      Event.isFsAction, Event.step?]
  · intro p rest e h1 h2 h3 h4 h5
    rw [h3] at h5
    simp [handoffRun, h1, h2, h3, h4, h5, fsActions_append, ht3, fsActions_cons, fsActions_nil,
      Event.isFsAction, Event.step?]

/-- The order of the handoff calls of `handoffRun`, on a trace that so far
holds none. -/
theorem handoffRun_order (w : World) (t3 : List Event) (dir : String) (imApp : App)
    (a : RktApp) (ht3 : fsActions t3 = []) :
    steps (handoffRun w t3 dir imApp a).trace <+: [.chdir, .chroot, .stat, .exec] ∧
    (∀ p r, Event.chdir p r ∈ (handoffRun w t3 dir imApp a).trace → p = w.join dir "rootfs") ∧
    (∀ p r, Event.chroot p r ∈ (handoffRun w t3 dir imApp a).trace →
      p = "." ∧ Event.chdir (w.join dir "rootfs") none ∈ (handoffRun w t3 dir imApp a).trace) ∧
    (∀ p r, Event.stat p r ∈ (handoffRun w t3 dir imApp a).trace →
      Event.chroot "." none ∈ (handoffRun w t3 dir imApp a).trace) ∧
    (∀ p argv envv r, Event.exec p argv envv r ∈ (handoffRun w t3 dir imApp a).trace →
      Event.stat p none ∈ (handoffRun w t3 dir imApp a).trace) := by
  refine ⟨?_, ?_, ?_, ?_, ?_⟩
  · rw [← steps_fsActions]
    unfold handoffRun
    simp only []
    repeat' split
    all_goals simp [fsActions_append, ht3, fsActions_cons, fsActions_nil,
        Event.isFsAction, Event.step?, steps_cons, steps_nil]
  · intro p r
    rw [mem_fsActions (Event.chdir p r) _ rfl]
    unfold handoffRun
    simp only []
    repeat' split
    all_goals simp_all [fsActions_append, fsActions_cons, fsActions_nil,
        Event.isFsAction, Event.step?]
  · intro p r
    rw [mem_fsActions (Event.chroot p r) _ rfl, mem_fsActions (Event.chdir _ _) _ rfl]
    unfold handoffRun
    simp only []
    repeat' split
    all_goals simp_all [fsActions_append, fsActions_cons, fsActions_nil,
        Event.isFsAction, Event.step?]
  · intro p r
    rw [mem_fsActions (Event.stat p r) _ rfl, mem_fsActions (Event.chroot _ _) _ rfl]
    unfold handoffRun
    simp only []
    repeat' split
    all_goals simp_all [fsActions_append, fsActions_cons, fsActions_nil,
        Event.isFsAction, Event.step?]
  · intro p argv envv r
    rw [mem_fsActions (Event.exec p argv envv r) _ rfl, mem_fsActions (Event.stat _ _) _ rfl]
    unfold handoffRun
    simp only []
    repeat' split
    all_goals simp_all [fsActions_append, fsActions_cons, fsActions_nil,
        Event.isFsAction, Event.step?]

/-- The removals of `handoffRun`, on a trace that so far holds none: none when
the process image is replaced, and otherwise only of `dir` and only in a run
with a failed handoff call. -/
theorem handoffRun_removals (w : World) (t3 : List Event) (dir : String) (imApp : App)
    (a : RktApp) (ht3 : fsActions t3 = []) :
    ((handoffRun w t3 dir imApp a).out = .replaced →
      removals (handoffRun w t3 dir imApp a).trace = []) ∧
    (∀ p ∈ removals (handoffRun w t3 dir imApp a).trace,
      p = dir ∧ ∃ e ∈ (handoffRun w t3 dir imApp a).trace, e.failedStep = true) ∧
    (∀ n, (handoffRun w t3 dir imApp a).out = .ret n → n = 1) := by
  refine ⟨?_, ?_, ?_⟩
  · rw [← removals_fsActions]
    unfold handoffRun
    simp only []
    repeat' split
    all_goals simp_all [fsActions_append, fsActions_cons, fsActions_nil,
        Event.isFsAction, Event.step?, removals_cons, removals_nil]
  · intro p hp
    rw [← removals_fsActions] at hp
    suffices h : p = dir ∧ ∃ e ∈ fsActions (handoffRun w t3 dir imApp a).trace,
        e.failedStep = true by
      obtain ⟨h1, e, he, hf⟩ := h
      exact ⟨h1, e, (List.mem_filter.1 he).1, hf⟩
    revert hp
    unfold handoffRun
    simp only []
    repeat' split
    all_goals simp_all [fsActions_append, fsActions_cons, fsActions_nil,
        Event.isFsAction, Event.step?, removals_cons, removals_nil, Event.failedStep]
  · intro n
    unfold handoffRun
    simp only []
    repeat' split
    all_goals simp_all

/-- The exec call of `handoffRun`, on a trace that so far holds no handoff
call. -/
theorem handoffRun_exec (w : World) (t3 : List Event) (dir : String) (imApp : App)
    (a : RktApp) (ht3 : fsActions t3 = []) :
    (∀ p argv envv r, Event.exec p argv envv r ∈ (handoffRun w t3 dir imApp a).trace →
      argv = imApp.Exec ++ a.Args ∧ (imApp.Exec ++ a.Args).head? = some p ∧
      envv = w.environ ∧ r = w.exec p argv envv) ∧
    (∀ p rest, imApp.Exec ++ a.Args = p :: rest → w.chdir (w.join dir "rootfs") = none →
      w.chroot "." = none → w.stat p = none →
      Event.exec p (imApp.Exec ++ a.Args) w.environ
        (w.exec p (imApp.Exec ++ a.Args) w.environ) ∈ (handoffRun w t3 dir imApp a).trace) := by
  refine ⟨?_, ?_⟩
  · intro p argv envv r
    rw [mem_fsActions (Event.exec p argv envv r) _ rfl]
    unfold handoffRun
    simp only []
    repeat' split
    all_goals simp_all [fsActions_append, fsActions_cons, fsActions_nil,
        Event.isFsAction, Event.step?]
  · intro p rest h1 h2 h3 h4
    rw [mem_fsActions (Event.exec _ _ _ _) _ rfl]
    unfold handoffRun
    simp only []
    repeat' split
    all_goals simp_all [fsActions_append, fsActions_cons, fsActions_nil,
        Event.isFsAction, Event.step?]

/-- The entrypoint of `handoffRun` when the manifest's exec list is `e0 :: es`. -/
theorem handoffRun_entrypoint (w : World) (t3 : List Event) (dir : String) (imApp : App)
    (a : RktApp) (e0 : String) (es : List String) (ht3 : fsActions t3 = [])
    (hE : imApp.Exec = e0 :: es) :
    (handoffRun w t3 dir imApp a).out ≠ .panic "runtime error: index out of range" ∧
    (∀ p r, Event.stat p r ∈ (handoffRun w t3 dir imApp a).trace → p = e0) ∧
    (∀ p argv envv r, Event.exec p argv envv r ∈ (handoffRun w t3 dir imApp a).trace →
      p = e0) ∧
    (w.chdir (w.join dir "rootfs") = none → w.chroot "." = none →
      Event.stat e0 (w.stat e0) ∈ (handoffRun w t3 dir imApp a).trace) := by
  refine ⟨?_, ?_, ?_, ?_⟩
  · unfold handoffRun
    simp only [hE, List.cons_append]
    repeat' split
    all_goals simp_all
  · intro p r
    rw [mem_fsActions (Event.stat p r) _ rfl]
    unfold handoffRun
    simp only [hE, List.cons_append]
    repeat' split
    all_goals simp_all [fsActions_append, fsActions_cons, fsActions_nil,
        Event.isFsAction, Event.step?]
  · intro p argv envv r
    rw [mem_fsActions (Event.exec p argv envv r) _ rfl]
    unfold handoffRun
    simp only [hE, List.cons_append]
    repeat' split
    all_goals simp_all [fsActions_append, fsActions_cons, fsActions_nil,
        Event.isFsAction, Event.step?]
  · intro h1 h2
    rw [mem_fsActions (Event.stat _ _) _ rfl]
    unfold handoffRun
    simp only [hE, List.cons_append]
    repeat' split
    all_goals simp_all [fsActions_append, fsActions_cons, fsActions_nil,
        Event.isFsAction, Event.step?]

/-- Witness of C3 in four worlds, one for each failing handoff step. -/
theorem runFly_handoff_failure_witness :
    (fsActions (runFly chdirFailWorld demoGlobals demoArgs).trace
        = [.chdir demoRootfs (some "ENOENT"), .removeAll demoDir] ∧
      (runFly chdirFailWorld demoGlobals demoArgs).out = .ret 1) ∧
    (fsActions (runFly chrootFailWorld demoGlobals demoArgs).trace
        = [.chdir demoRootfs none, .chroot "." (some "EPERM"), .removeAll demoDir] ∧
      (runFly chrootFailWorld demoGlobals demoArgs).out = .ret 1) ∧
    (fsActions (runFly statFailWorld demoGlobals demoArgs).trace
        = [.chdir demoRootfs none, .chroot "." none, .stat "/bin/echo" (some "ENOENT"),
            .removeAll demoDir] ∧
      (runFly statFailWorld demoGlobals demoArgs).out = .ret 1) ∧
    (fsActions (runFly execFailWorld demoGlobals demoArgs).trace
        = [.chdir demoRootfs none, .chroot "." none, .stat "/bin/echo" none,
            .exec "/bin/echo" ["/bin/echo", "hello"] ["PATH=/bin"] (.failed "EACCES"),
            .removeAll demoDir] ∧
      (runFly execFailWorld demoGlobals demoArgs).out = .ret 1) :=
  ⟨(runFly_handoff_failure chdirFailWorld demoGlobals demoGlobals demoArgs demoApps demoDir
      demoApp ⟨"example.com/echo", ["hello"], demoID⟩
      ⟨rfl, rfl, Or.inl ⟨by decide, rfl⟩⟩ (by decide) (by decide)).1 "ENOENT" rfl,
   (runFly_handoff_failure chrootFailWorld demoGlobals demoGlobals demoArgs demoApps demoDir
      demoApp ⟨"example.com/echo", ["hello"], demoID⟩
      ⟨rfl, rfl, Or.inl ⟨by decide, rfl⟩⟩ (by decide) (by decide)).2.1 "EPERM" rfl rfl,
   (runFly_handoff_failure statFailWorld demoGlobals demoGlobals demoArgs demoApps demoDir
      demoApp ⟨"example.com/echo", ["hello"], demoID⟩
      ⟨rfl, rfl, Or.inl ⟨by decide, rfl⟩⟩ (by decide) (by decide)).2.2.1 "/bin/echo" ["hello"]
      "ENOENT" rfl rfl rfl rfl,
   (runFly_handoff_failure execFailWorld demoGlobals demoGlobals demoArgs demoApps demoDir
      demoApp ⟨"example.com/echo", ["hello"], demoID⟩
      ⟨rfl, rfl, Or.inl ⟨by decide, rfl⟩⟩ (by decide) (by decide)).2.2.2 "/bin/echo" ["hello"]
      "EACCES" rfl rfl rfl rfl rfl⟩

/-- C4: after a preparation that handed over the application section `imApp`,
with `a` the image of the command line, every exec call of the run has as
argument vector exactly `imApp.Exec ++ a.Args`, as program path the first
element of that vector and as environment the environment of the launching
process; and when chdir, chroot and stat succeed, that exec call is made. -/
theorem runFly_execargs (w : World) (g g1 : Globals) (args : List String)
    (rktApp : Apps) (dir : String) (imApp : App) (a : RktApp)
    (hreach : ReachesPrepare w g args g1 rktApp)
    (hprep : (runFlyPrepareApp w g1 rktApp).out = .ret (dir, some imApp, none))
    (hlast : (runFlyPrepareApp w g1 rktApp).app.Last = some a) :
    (∀ p argv envv r, Event.exec p argv envv r ∈ (runFly w g args).trace →
      argv = imApp.Exec ++ a.Args ∧ (imApp.Exec ++ a.Args).head? = some p ∧
      envv = w.environ) ∧
    (∀ p rest, imApp.Exec ++ a.Args = p :: rest → w.chdir (w.join dir "rootfs") = none →
      w.chroot "." = none → w.stat p = none →
      Event.exec p (imApp.Exec ++ a.Args) w.environ
        (w.exec p (imApp.Exec ++ a.Args) w.environ) ∈ (runFly w g args).trace) := by
  obtain ⟨t3, ht3, heq⟩ := runFly_of_prepared w g g1 args rktApp dir imApp a hreach hprep hlast
  rw [heq]
  refine ⟨?_, (handoffRun_exec w t3 dir imApp a ht3).2⟩
  intro p argv envv r hmem
  obtain ⟨h1, h2, h3, -⟩ := (handoffRun_exec w t3 dir imApp a ht3).1 p argv envv r hmem
  exact ⟨h1, h2, h3⟩

/-- Witness of C4: exec list `["/bin/echo"]` and user arguments `["hello"]`
give the exec call of `/bin/echo` with vector `["/bin/echo", "hello"]` and the
inherited environment. -/
theorem runFly_execargs_witness :
    Event.exec "/bin/echo" ["/bin/echo", "hello"] ["PATH=/bin"] .replaced
      ∈ (runFly demoWorld demoGlobals demoArgs).trace ∧
    (∀ p argv envv r, Event.exec p argv envv r ∈ (runFly demoWorld demoGlobals demoArgs).trace →
      argv = ["/bin/echo"] ++ ["hello"] ∧ (["/bin/echo"] ++ ["hello"]).head? = some p ∧
      envv = ["PATH=/bin"]) :=
  ⟨(runFly_execargs demoWorld demoGlobals demoGlobals demoArgs demoApps demoDir
      demoApp ⟨"example.com/echo", ["hello"], demoID⟩
      ⟨rfl, rfl, Or.inl ⟨by decide, rfl⟩⟩ (by decide) (by decide)).2 "/bin/echo" ["hello"]
      rfl rfl rfl rfl,
   (runFly_execargs demoWorld demoGlobals demoGlobals demoArgs demoApps demoDir
      demoApp ⟨"example.com/echo", ["hello"], demoID⟩
      ⟨rfl, rfl, Or.inl ⟨by decide, rfl⟩⟩ (by decide) (by decide)).1⟩

/-- C5 (the code diverges): with a manifest without application section,
`runFlyPrepareApp` returns a nil error, `runFly` takes the preparation for a
success and dereferences the nil application section: the run ends in a
runtime panic, not in a returned non-zero status. -/
theorem runFly_noApp_panics :
    runFly noAppWorld demoGlobals demoArgs =
      ⟨[.parseApps demoArgs, .newStore "/var/lib/rkt", .getConfig, .getKeystore, .findImages,
        .newUUID, .mkdirAll demoDir 0o700 none, .getImageManifest "sha512-a1b2",
        .removeAll demoDir, .stderr "fly: image has no App section" []],
       .panic "runtime error: invalid memory address or nil pointer dereference"⟩ := by
  decide

/-- A run of `runFly` that returns, returns 1: status 0 is never returned. -/
theorem runFly_exit_one (w : World) (g : Globals) (args : List String) (n : Int)
    (h : (runFly w g args).out = .ret n) : n = 1 := by
  rcases runFly_cases w g args with ⟨-, -, h1⟩ | ⟨g1, rktApp, dir, imApp, a, t3, -, -, -, ht3, heq⟩
  · exact h1 n h
  · rw [heq] at h
    exact (handoffRun_removals w t3 dir imApp a ht3).2.2 n h

/-- C6: in every run of `runFly` the handoff calls are an initial segment of
chdir, chroot, stat, exec, in that order and without repetition; chroot is
called on "." and only after a successful chdir, stat only after a successful
chroot, exec only after chdir, chroot and the stat of its program path all
succeeded; and every chdir is into `dir/rootfs` for the directory `dir` handed
over by the preparation. -/
theorem runFly_handoff_order (w : World) (g : Globals) (args : List String) :
    steps (runFly w g args).trace <+: [.chdir, .chroot, .stat, .exec] ∧
    (∀ p r, Event.chroot p r ∈ (runFly w g args).trace →
      p = "." ∧ ∃ rfs, Event.chdir rfs none ∈ (runFly w g args).trace) ∧
    (∀ p r, Event.stat p r ∈ (runFly w g args).trace →
      Event.chroot "." none ∈ (runFly w g args).trace) ∧
    (∀ p argv envv r, Event.exec p argv envv r ∈ (runFly w g args).trace →
      (∃ rfs, Event.chdir rfs none ∈ (runFly w g args).trace) ∧
      Event.chroot "." none ∈ (runFly w g args).trace ∧
      Event.stat p none ∈ (runFly w g args).trace) ∧
    (∀ g1 rktApp dir imApp, ReachesPrepare w g args g1 rktApp →
      (runFlyPrepareApp w g1 rktApp).out = .ret (dir, some imApp, none) →
      ∀ p r, Event.chdir p r ∈ (runFly w g args).trace → p = w.join dir "rootfs") := by
  refine ⟨?_, ?_⟩
  · rcases runFly_cases w g args with ⟨h, -, -⟩ | ⟨g1, rktApp, dir, imApp, a, t3, -, -, -, ht3, heq⟩
    · simp [h]
    · rw [heq]
      exact (handoffRun_order w t3 dir imApp a ht3).1
  refine ⟨?_, ?_⟩
  · rcases runFly_cases w g args with ⟨h, -, -⟩ | ⟨g1, rktApp, dir, imApp, a, t3, -, -, -, ht3, heq⟩
    · intro p r hmem
      simpa [Event.step?] using steps_nil_mem h hmem
    · rw [heq]
      intro p r hmem
      obtain ⟨h1, h2⟩ := (handoffRun_order w t3 dir imApp a ht3).2.2.1 p r hmem
      exact ⟨h1, _, h2⟩
  refine ⟨?_, ?_⟩
  · rcases runFly_cases w g args with ⟨h, -, -⟩ | ⟨g1, rktApp, dir, imApp, a, t3, -, -, -, ht3, heq⟩
    · intro p r hmem
      simpa [Event.step?] using steps_nil_mem h hmem
    · rw [heq]
      exact (handoffRun_order w t3 dir imApp a ht3).2.2.2.1
  refine ⟨?_, ?_⟩
  · rcases runFly_cases w g args with ⟨h, -, -⟩ | ⟨g1, rktApp, dir, imApp, a, t3, -, -, -, ht3, heq⟩
    · intro p argv envv r hmem
      simpa [Event.step?] using steps_nil_mem h hmem
    · rw [heq]
      intro p argv envv r hmem
      have ho := handoffRun_order w t3 dir imApp a ht3
      have hstat := ho.2.2.2.2 p argv envv r hmem
      have hchroot := ho.2.2.2.1 p none hstat
      exact ⟨⟨_, (ho.2.2.1 "." none hchroot).2⟩, hchroot, hstat⟩
  · intro g1 rktApp dir imApp hreach hprep p r hmem
    obtain ⟨-, -, hl⟩ := prepare_handover w g1 rktApp dir imApp none hprep
    obtain ⟨a, hlast⟩ := Option.ne_none_iff_exists'.1 hl
    obtain ⟨t3, ht3, heq⟩ := runFly_of_prepared w g g1 args rktApp dir imApp a hreach hprep hlast
    rw [heq] at hmem
    exact (handoffRun_order w t3 dir imApp a ht3).2.1 p r hmem

/-- Witness of C6 in the demo world: the exec call is made, after a
successful chdir into the staged rootfs, chroot and stat. -/
theorem runFly_handoff_order_witness :
    Event.exec "/bin/echo" ["/bin/echo", "hello"] ["PATH=/bin"] .replaced
      ∈ (runFly demoWorld demoGlobals demoArgs).trace ∧
    ((∃ rfs, Event.chdir rfs none ∈ (runFly demoWorld demoGlobals demoArgs).trace) ∧
      Event.chroot "." none ∈ (runFly demoWorld demoGlobals demoArgs).trace ∧
      Event.stat "/bin/echo" none ∈ (runFly demoWorld demoGlobals demoArgs).trace) ∧
    (∀ p r, Event.chdir p r ∈ (runFly demoWorld demoGlobals demoArgs).trace →
      p = demoRootfs) :=
  ⟨by decide,
   (runFly_handoff_order demoWorld demoGlobals demoArgs).2.2.2.1 "/bin/echo"
      ["/bin/echo", "hello"] ["PATH=/bin"] .replaced (by decide),
   (runFly_handoff_order demoWorld demoGlobals demoArgs).2.2.2.2 demoGlobals demoApps demoDir
      demoApp ⟨rfl, rfl, Or.inl ⟨by decide, rfl⟩⟩ (by decide)⟩

/-- C7: a run of `runFly` that ends by process replacement has issued no
removal at all; and in a run whose preparation handed over the staged
directory `dir`, every removal is of `dir` and the run holds a failed handoff
call. -/
theorem runFly_removal_only_on_failure (w : World) (g : Globals) (args : List String) :
    ((runFly w g args).out = .replaced → removals (runFly w g args).trace = []) ∧
    (∀ g1 rktApp dir imApp, ReachesPrepare w g args g1 rktApp →
      (runFlyPrepareApp w g1 rktApp).out = .ret (dir, some imApp, none) →
      ∀ p ∈ removals (runFly w g args).trace,
        p = dir ∧ ∃ e ∈ (runFly w g args).trace, e.failedStep = true) := by
  refine ⟨?_, ?_⟩
  · rcases runFly_cases w g args with ⟨-, h, -⟩ | ⟨g1, rktApp, dir, imApp, a, t3, -, -, -, ht3, heq⟩
    · intro h1
      exact absurd h1 h
    · rw [heq]
      exact (handoffRun_removals w t3 dir imApp a ht3).1
  · intro g1 rktApp dir imApp hreach hprep
    obtain ⟨-, -, hl⟩ := prepare_handover w g1 rktApp dir imApp none hprep
    obtain ⟨a, hlast⟩ := Option.ne_none_iff_exists'.1 hl
    obtain ⟨t3, ht3, heq⟩ := runFly_of_prepared w g g1 args rktApp dir imApp a hreach hprep hlast
    rw [heq]
    exact (handoffRun_removals w t3 dir imApp a ht3).2.1

/-- Witness of C7: the demo world ends by process replacement without any
removal; the world with a failing exec removes the staged directory. -/
theorem runFly_removal_only_on_failure_witness :
    ((runFly demoWorld demoGlobals demoArgs).out = .replaced ∧
      removals (runFly demoWorld demoGlobals demoArgs).trace = []) ∧
    (demoDir ∈ removals (runFly execFailWorld demoGlobals demoArgs).trace ∧
      ∃ e ∈ (runFly execFailWorld demoGlobals demoArgs).trace, e.failedStep = true) :=
  ⟨⟨by decide, (runFly_removal_only_on_failure demoWorld demoGlobals demoArgs).1 (by decide)⟩,
   ⟨by decide,
    ((runFly_removal_only_on_failure execFailWorld demoGlobals demoArgs).2 demoGlobals demoApps
      demoDir demoApp ⟨rfl, rfl, Or.inl ⟨by decide, rfl⟩⟩ (by decide) demoDir (by decide)).2⟩⟩

/-- C10: after a preparation whose application section has the non-empty exec
list `e0 :: es`, for every list of user arguments `a.Args`, index 0 of
`execargs` is in bounds and holds `e0`, the run does not end in the
out-of-range panic, every stat call and every exec call of the run is on `e0`,
and the stat call is made once chdir and chroot succeed. -/
theorem runFly_entrypoint (w : World) (g g1 : Globals) (args : List String)
    (rktApp : Apps) (dir : String) (imApp : App) (a : RktApp) (e0 : String) (es : List String)
    (hreach : ReachesPrepare w g args g1 rktApp)
    (hprep : (runFlyPrepareApp w g1 rktApp).out = .ret (dir, some imApp, none))
    (hlast : (runFlyPrepareApp w g1 rktApp).app.Last = some a)
    (hE : imApp.Exec = e0 :: es) :
    0 < (imApp.Exec ++ a.Args).length ∧ (imApp.Exec ++ a.Args)[0]? = some e0 ∧
    (runFly w g args).out ≠ .panic "runtime error: index out of range" ∧
    (∀ p r, Event.stat p r ∈ (runFly w g args).trace → p = e0) ∧
    (∀ p argv envv r, Event.exec p argv envv r ∈ (runFly w g args).trace → p = e0) ∧
    (w.chdir (w.join dir "rootfs") = none → w.chroot "." = none →
      Event.stat e0 (w.stat e0) ∈ (runFly w g args).trace) := by
  obtain ⟨t3, ht3, heq⟩ := runFly_of_prepared w g g1 args rktApp dir imApp a hreach hprep hlast
  rw [heq]
  refine ⟨by simp [hE], by simp [hE], ?_⟩
  exact handoffRun_entrypoint w t3 dir imApp a e0 es ht3 hE

/-- Witness of C10 in the demo world: the entrypoint is `/bin/echo`, the first
element of the manifest's exec list. -/
theorem runFly_entrypoint_witness :
    0 < (demoApp.Exec ++ ["hello"]).length ∧
    (demoApp.Exec ++ ["hello"])[0]? = some "/bin/echo" ∧
    (runFly demoWorld demoGlobals demoArgs).out ≠ .panic "runtime error: index out of range" ∧
    (∀ p r, Event.stat p r ∈ (runFly demoWorld demoGlobals demoArgs).trace →
      p = "/bin/echo") ∧
    (∀ p argv envv r, Event.exec p argv envv r ∈ (runFly demoWorld demoGlobals demoArgs).trace →
      p = "/bin/echo") ∧
    (demoWorld.chdir (demoWorld.join demoDir "rootfs") = none → demoWorld.chroot "." = none →
      Event.stat "/bin/echo" (demoWorld.stat "/bin/echo")
        ∈ (runFly demoWorld demoGlobals demoArgs).trace) :=
  runFly_entrypoint demoWorld demoGlobals demoGlobals demoArgs demoApps demoDir
    demoApp ⟨"example.com/echo", ["hello"], demoID⟩ "/bin/echo" []
    ⟨rfl, rfl, Or.inl ⟨by decide, rfl⟩⟩ (by decide) (by decide) rfl

end Fly
